import Mathlib

/-!
Verification development for a small web-crawler repository.

The repository contains three variants of the same crawler program:
`crawler.py` (an early standalone script), `web_crawler.py` + `models.py` +
`utils.py` + `text_processor.py` (a class-based variant), and `aio.py`
(the consolidated, self-contained variant whose data model matches the
specification: `unique_initial_urls`, `ProcessedItem` content, sitemap
seeding).  The definitions below are shallow embeddings of the Python
functions of those files.  Where the variants disagree, both versions are
embedded and the difference is proved.

External collaborators (the Playwright page fetcher, the DOM query, the
aiohttp transport, the XML parser) are modelled as oracles passed in as
function arguments; everything the repository itself computes is embedded
directly.  Machine integers do not occur (Python integers are unbounded);
wall-clock timestamps (`date_crawled`) are not modelled.
-/

/-! ## Model of Python `urllib.parse`

The crawler uses `urlparse`, `urljoin` and plain `str` methods.  The
functions below follow CPython `Lib/urllib/parse.py`: `urlsplit` (scheme
split, netloc split at the first of `/?#`, fragment split at the first
`#`, query split at the first `?`), `_splitparams`, `urlparse`,
`urlunsplit`, `urlunparse` and `urljoin` (RFC 3986 relative resolution
with dot-segment removal).  The WHATWG sanitisation of recent CPython
(strip of leading/trailing C0-control/space characters, removal of tab,
CR and LF) is included.  The `ValueError` raised by CPython for a
mismatched bracketed (IPv6) host is not modelled; no input considered in
this development contains square brackets. -/

/-- Characters allowed in a URL scheme after the first letter
(`scheme_chars` in CPython). -/
def schemeChar (c : Char) : Bool :=
  c.isAlpha || c.isDigit || c = '+' || c = '-' || c = '.'

/-- The bytes CPython removes from URLs before parsing (tab, CR, LF). -/
def isUnsafeUrlChar (c : Char) : Bool :=
  c = '\t' || c = '\r' || c = '\n'

/-- Strip leading and trailing C0-control and space characters
(codepoints up to 0x20), as CPython does before parsing a URL. -/
def stripControlSpace (l : List Char) : List Char :=
  ((l.dropWhile fun c => c.val ≤ 32).reverse.dropWhile fun c => c.val ≤ 32).reverse

/-- CPython URL sanitisation: strip C0-control/space at both ends, then
remove every tab, CR and LF. -/
def sanitizeUrl (s : String) : List Char :=
  (stripControlSpace s.data).filter fun c => !(isUnsafeUrlChar c)

/-- Split a leading `scheme:` off a URL if present
(the scheme test of CPython `urlsplit`: the text before the first `:`
must start with an ASCII letter and consist of scheme characters);
otherwise keep the supplied default scheme.  Returns the (lower-cased)
scheme and the remainder. -/
def splitScheme (l : List Char) (dscheme : List Char) : List Char × List Char :=
  match l.findIdx? (· = ':') with
  | some i =>
    let ok : Bool :=
      decide (0 < i) &&
      (match l.head? with
       | some c => c.isAlpha
       | none => false) &&
      (l.take i).all schemeChar
    if ok then ((l.take i).map Char.toLower, l.drop (i + 1)) else (dscheme, l)
  | none => (dscheme, l)

/-- CPython `_splitnetloc`: the netloc extends from after the leading
`//` up to the first `/`, `?` or `#`. -/
def splitNetloc (l : List Char) : List Char × List Char :=
  let after := l.drop 2
  let idx :=
    match after.findIdx? (fun c => c = '/' || c = '?' || c = '#') with
    | some j => j
    | none => after.length
  (after.take idx, after.drop idx)

/-- Split a list at the first occurrence of a character, dropping the
separator; the second component is empty when the character is absent
(this is Python `s.split(c, 1)` guarded by `c in s`). -/
def splitOnceChar (c : Char) (l : List Char) : List Char × List Char :=
  match l.findIdx? (· = c) with
  | some i => (l.take i, l.drop (i + 1))
  | none => (l, [])

/-- Result of CPython `urlsplit`. -/
structure SplitResult where
  scheme : String
  netloc : String
  path : String
  query : String
  fragment : String
deriving Repr, DecidableEq

/-- CPython `urlsplit` (with `allow_fragments=True`). -/
def pyUrlsplit (url : String) (dscheme : String) : SplitResult :=
  let u0 := sanitizeUrl url
  let d0 := sanitizeUrl dscheme
  let (scheme, rest) := splitScheme u0 d0
  let (netloc, rest) :=
    if rest.take 2 = ['/', '/'] then splitNetloc rest else ([], rest)
  let (rest, fragment) := splitOnceChar '#' rest
  let (path, query) := splitOnceChar '?' rest
  ⟨String.mk scheme, String.mk netloc, String.mk path,
    String.mk query, String.mk fragment⟩

/-- Index of the last occurrence of a character (Python `rfind`),
`none` when absent. -/
def rfindChar (c : Char) (l : List Char) : Option Nat :=
  match l.reverse.findIdx? (· = c) with
  | some j => some (l.length - 1 - j)
  | none => none

/-- CPython `_splitparams`: split `;params` from the last path segment. -/
def pySplitparams (path : List Char) : List Char × List Char :=
  let iOpt :=
    if path.contains '/' then
      match rfindChar '/' path with
      | some r =>
        (match (path.drop r).findIdx? (· = ';') with
         | some j => some (r + j)
         | none => none)
      | none => none
    else path.findIdx? (· = ';')
  match iOpt with
  | some i => (path.take i, path.drop (i + 1))
  | none => (path, [])

/-- Result of CPython `urlparse`. -/
structure ParseResult where
  scheme : String
  netloc : String
  path : String
  params : String
  query : String
  fragment : String
deriving Repr, DecidableEq

/-- CPython `urlparse`: `urlsplit` plus the params split when the path
contains a `;`. -/
def pyUrlparse (url : String) (dscheme : String) : ParseResult :=
  let s := pyUrlsplit url dscheme
  if s.path.data.contains ';' then
    let (p, params) := pySplitparams s.path.data
    ⟨s.scheme, s.netloc, String.mk p, String.mk params, s.query, s.fragment⟩
  else ⟨s.scheme, s.netloc, s.path, "", s.query, s.fragment⟩

/-- Python `s.startswith(pre)`. -/
def pyStartsWith (s pre : String) : Bool :=
  pre.data.isPrefixOf s.data

/-- Python `s.endswith(suf)`. -/
def pyEndsWith (s suf : String) : Bool :=
  suf.data.isSuffixOf s.data

/-- CPython `urlunsplit`. -/
def pyUrlunsplit (scheme netloc url query fragment : String) : String :=
  let url1 :=
    if netloc ≠ "" ∨ (url ≠ "" ∧ pyStartsWith url "//") then
      let u := if url ≠ "" ∧ ¬ pyStartsWith url "/" then "/" ++ url else url
      "//" ++ netloc ++ u
    else url
  let url2 := if scheme ≠ "" then scheme ++ ":" ++ url1 else url1
  let url3 := if query ≠ "" then url2 ++ "?" ++ query else url2
  if fragment ≠ "" then url3 ++ "#" ++ fragment else url3

/-- CPython `urlunparse`. -/
def pyUrlunparse (scheme netloc path params query fragment : String) : String :=
  let url := if params ≠ "" then path ++ ";" ++ params else path
  pyUrlunsplit scheme netloc url query fragment

/-- Python `s.split(c)` for a one-character separator. -/
def splitOnChar (c : Char) : List Char → List (List Char)
  | [] => [[]]
  | a :: rest =>
    if a = c then [] :: splitOnChar c rest
    else
      match splitOnChar c rest with
      | h :: t => (a :: h) :: t
      | [] => [[a]]

/-- The slice assignment `segments[1:-1] = filter(None, segments[1:-1])`
of CPython `urljoin`: drop empty segments strictly between the first and
the last element. -/
def filterMiddleAux : List (List Char) → List (List Char)
  | [] => []
  | [a] => [a]
  | a :: rest => if a = [] then filterMiddleAux rest else a :: filterMiddleAux rest

/-- See `filterMiddleAux`; the first element is always kept. -/
def filterMiddle : List (List Char) → List (List Char)
  | [] => []
  | [a] => [a]
  | a :: rest => a :: filterMiddleAux rest

/-- The dot-segment resolution loop of CPython `urljoin` (`..` pops the
accumulator, an out-of-range pop is ignored, `.` is skipped). -/
def resolveSegs : List (List Char) → List (List Char) → List (List Char)
  | [], acc => acc
  | seg :: rest, acc =>
    if seg = ['.', '.'] then resolveSegs rest acc.dropLast
    else if seg = ['.'] then resolveSegs rest acc
    else resolveSegs rest (acc ++ [seg])

/-- List `uses_relative` of CPython `urllib.parse`. -/
def usesRelative : List String :=
  ["", "ftp", "http", "gopher", "nntp", "imap", "wais", "file", "https",
   "shttp", "mms", "prospero", "rtsp", "rtspu", "sftp", "svn", "svn+ssh",
   "ws", "wss"]

/-- List `uses_netloc` of CPython `urllib.parse`. -/
def usesNetloc : List String :=
  ["", "ftp", "http", "gopher", "nntp", "telnet", "imap", "wais", "file",
   "mms", "https", "shttp", "snews", "prospero", "rtsp", "rtspu", "rsync",
   "svn", "svn+ssh", "sftp", "nfs", "git", "git+ssh", "ws", "wss",
   "itms-services"]

/-- CPython `urljoin`. -/
def pyUrljoin (base url : String) : String :=
  if base = "" then url
  else if url = "" then base
  else
    let b := pyUrlparse base ""
    let u := pyUrlparse url b.scheme
    if u.scheme ≠ b.scheme ∨ u.scheme ∉ usesRelative then url
    else if u.scheme ∈ usesNetloc ∧ u.netloc ≠ "" then
      pyUrlunparse u.scheme u.netloc u.path u.params u.query u.fragment
    else
      let netloc := if u.scheme ∈ usesNetloc then b.netloc else u.netloc
      if u.path = "" ∧ u.params = "" then
        let query := if u.query = "" then b.query else u.query
        pyUrlunparse u.scheme netloc b.path b.params query u.fragment
      else
        let baseParts0 := splitOnChar '/' b.path.data
        let baseParts :=
          if baseParts0.getLast? ≠ some [] then baseParts0.dropLast else baseParts0
        let segments :=
          if pyStartsWith u.path "/" then splitOnChar '/' u.path.data
          else filterMiddle (baseParts ++ splitOnChar '/' u.path.data)
        let resolved0 := resolveSegs segments []
        let resolved :=
          if segments.getLast? = some ['.'] ∨ segments.getLast? = some ['.', '.']
          then resolved0 ++ [[]]
          else resolved0
        let joined := String.mk (List.intercalate ['/'] resolved)
        let path := if joined = "" then "/" else joined
        pyUrlunparse u.scheme netloc path u.params u.query u.fragment

/-- Python `netloc.replace("www.", "")`: remove every (leftmost,
non-overlapping) occurrence of the substring `www.`. -/
def removeWww : List Char → List Char
  | 'w' :: 'w' :: 'w' :: '.' :: rest => removeWww rest
  | c :: rest => c :: removeWww rest
  | [] => []

/-! ## URL validators

Three validators exist in the repository.  `BaseCrawler.is_valid_url`
(`base_crawler.py`, inherited by `web_crawler.py`) and the local
`is_valid_url` of `crawler.py` are the same test: scheme in
`('http', 'https')` and path not starting with `tel:`.  The validator of
`aio.py` additionally requires a non-empty netloc. -/

namespace BaseCrawler

/-- Validator of `base_crawler.py` lines 11-14 (identical to `crawler.py` lines 46-48):
scheme must be http or https and the path must not start with `tel:`;
there is no authority check. -/
def is_valid_url (url : String) : Bool :=
  let parsed := pyUrlparse url ""
  (parsed.scheme == "http" || parsed.scheme == "https") &&
    !(pyStartsWith parsed.path "tel:")

end BaseCrawler

namespace Aio

/-- Validator of `aio.py` lines 93-96: scheme http or https, non-empty netloc, and
path not starting with `tel:`. -/
def is_valid_url (url : String) : Bool :=
  let parsed := pyUrlparse url ""
  (parsed.scheme == "http" || parsed.scheme == "https") &&
    parsed.netloc != "" &&
    !(pyStartsWith parsed.path "tel:")

end Aio

/-! ## Link discovery (`find_top_link_containers`)

The JavaScript evaluated in the page enumerates every element of the
document body, keeps those with at least one anchor descendant, maps each
to a record `{selector, linkCount, links}`, sorts by descending
`linkCount` (JavaScript `Array.prototype.sort` is stable) and keeps the
first three.  The DOM is external (spec section 6); it is modelled as the
list of body elements in document order, each carrying its selector
string and the href values of its anchor descendants, so `linkCount` is
the length of `anchors`. -/

/-- One element of the rendered page body, in document order:
its selector text and the resolved href values of its anchor
descendants. -/
structure PageElement where
  selector : String
  anchors : List String
deriving Repr, DecidableEq

/-- The record the page-side JavaScript builds per element. -/
structure Container where
  selector : String
  linkCount : Nat
  links : List String
deriving Repr, DecidableEq

/-- The `map` step of the JavaScript. -/
def toContainer (e : PageElement) : Container :=
  ⟨e.selector, e.anchors.length, e.anchors⟩

/-- The `filter`+`map` steps: keep elements with at least one anchor. -/
def link_containers (elements : List PageElement) : List Container :=
  (elements.filter fun e => decide (0 < e.anchors.length)).map toContainer

/-- The sort order of the JavaScript comparator
`(a, b) => b.linkCount - a.linkCount`: descending anchor count. -/
def contLe (a b : Container) : Prop :=
  b.linkCount ≤ a.linkCount

instance : DecidableRel contLe := fun a b =>
  inferInstanceAs (Decidable (b.linkCount ≤ a.linkCount))

instance : IsTotal Container contLe :=
  ⟨fun a b => (Nat.le_total b.linkCount a.linkCount).elim Or.inl Or.inr⟩

instance : IsTrans Container contLe :=
  ⟨fun _ _ _ h1 h2 => Nat.le_trans h2 h1⟩

/-- The stable descending sort of the JavaScript
(`insertionSort` with a non-strict order is stable). -/
def sorted_containers (elements : List PageElement) : List Container :=
  List.insertionSort contLe (link_containers elements)

/-- Function `find_top_link_containers` (`aio.py` lines 177-197, `web_crawler.py`
lines 111-140): the top three link-dense containers.  The scroll and the
100 ms wait are page-fetcher effects with no computational content. -/
def find_top_link_containers (elements : List PageElement) : List Container :=
  (sorted_containers elements).take 3

/-! ## Domain scoping and link extraction (`aio.py`) -/

/-- The domain-scoping check of `extract_valid_urls` (`aio.py` lines
201 and 207-210): both authorities are passed through
`replace("www.", "")` — which removes every occurrence of the substring,
not only a leading label — and the candidate is accepted when its
processed authority equals the host's or ends with `"." +` the host's. -/
def in_scope (url host_url : String) : Bool :=
  let host_domain := String.mk (removeWww (pyUrlparse host_url "").netloc.data)
  let url_domain := String.mk (removeWww (pyUrlparse url "").netloc.data)
  url_domain == host_domain || pyEndsWith url_domain ("." ++ host_domain)

/-- The domain-scoping rule as worded by the specification (section 4.2),
for comparison with `in_scope`: strip one leading `www.` label from each
authority, then test equality or dotted-suffix.  This definition follows
the spec's words, not the source. -/
def in_scope_spec (url host_url : String) : Bool :=
  let strip := fun (s : String) =>
    if pyStartsWith s "www." then String.mk (s.data.drop 4) else s
  let host_domain := strip (pyUrlparse host_url "").netloc
  let url_domain := strip (pyUrlparse url "").netloc
  url_domain == host_domain || pyEndsWith url_domain ("." ++ host_domain)

/-- Insert a string into a list representing a Python set, keeping the
list duplicate-free (used for `set.add` / `set.update` / `set(...)`;
Python's set iteration order is unspecified, insertion order is used
here). -/
def insertUnique (l : List String) (a : String) : List String :=
  if a ∈ l then l else l ++ [a]

/-- Python `set(xs)` as a duplicate-free list. -/
def pySetList (l : List String) : List String :=
  l.foldl insertUnique []

namespace Aio

/-- Function `extract_valid_urls` (`aio.py` lines 199-214): join each container
link against the host URL, keep it when it is in scope, not yet
processed, and valid; finally `list(set(...))` deduplicates (the
iteration order of the Python set is unspecified; first-occurrence order
is used).  The host-domain normalisation is computed per link here,
which is extensionally the code's once-computed value. -/
def extract_valid_urls (containers : List Container) (host_url : String)
    (processed_urls : List String) : List String :=
  let valid_urls := containers.flatMap fun c =>
    c.links.filterMap fun link =>
      let full_url := pyUrljoin host_url link
      if in_scope full_url host_url && !(processed_urls.contains full_url)
          && is_valid_url full_url
      then some full_url else none
  pySetList valid_urls

end Aio

/-! ## Sitemap seeding (`fetch_sitemap`)

`fetch_sitemap` appears identically in `utils.py` lines 15-52 and
`aio.py` lines 52-89.  The aiohttp transport and the `ElementTree` XML
parser are external collaborators; they enter the model as oracles:
`http_get` yields either a client error or a `(status, body)` pair, and
`parse_xml` yields either a parse error or an element tree.  Everything
the repository's own code does with those results is embedded. -/

/-- The sitemap protocol namespace used by `fetch_sitemap`. -/
def sitemap_ns : String := "http://www.sitemaps.org/schemas/sitemap/0.9"

/-- An `ElementTree` element: tag (in `\x7bnamespace\x7dtag` form as
produced by the parser), optional text, children in document order. -/
inductive XmlElem where
  | node (tag : String) (text : Option String) (children : List XmlElem)

/-- Tag of an element. -/
def XmlElem.tag : XmlElem → String
  | .node t _ _ => t

/-- Text of an element (`None` for an empty element, as in Python). -/
def XmlElem.text : XmlElem → Option String
  | .node _ t _ => t

/-- Children of an element. -/
def XmlElem.children : XmlElem → List XmlElem
  | .node _ _ c => c

mutual

/-- All proper descendants of an element, preorder. -/
def xmlDescendants : XmlElem → List XmlElem
  | .node _ _ cs => xmlDescList cs

/-- All elements of a forest together with their descendants, preorder. -/
def xmlDescList : List XmlElem → List XmlElem
  | [] => []
  | c :: rest => c :: (xmlDescendants c ++ xmlDescList rest)

end

/-- Model of `root.findall(".//ns:url/ns:loc", namespace)`: for each descendant
tagged `url` in the sitemap namespace (in ElementTree's selection order),
its children tagged `loc` in that namespace. -/
def findall_url_loc (root : XmlElem) : List XmlElem :=
  (xmlDescendants root).flatMap fun n =>
    if n.tag = "\x7b" ++ sitemap_ns ++ "\x7durl" then
      n.children.filter fun c => c.tag == "\x7b" ++ sitemap_ns ++ "\x7dloc"
    else []

/-- The list comprehension of `fetch_sitemap`: the text of each matched
`loc` element, keeping only truthy texts (non-`None` and non-empty). -/
def loc_texts (root : XmlElem) : List String :=
  (findall_url_loc root).filterMap fun loc =>
    match loc.text with
    | some t => if t ≠ "" then some t else none
    | none => none

/-- The sitemap location: `urljoin(host_url, "sitemap.xml")`. -/
def sitemap_location (host_url : String) : String :=
  pyUrljoin host_url "sitemap.xml"

/-- Function `fetch_sitemap` (`utils.py` lines 15-52, `aio.py` lines 52-89).
A transport error (`aiohttp.ClientError`, which includes the
`ClientResponseError` the code raises itself for a non-200 status) and an
XML `ParseError` are caught and yield `[]`; zero truthy `loc` texts yield
`[]`; otherwise the `loc` texts are returned in order.  The function is
total: no failure escapes. -/
def fetch_sitemap (host_url : String)
    (http_get : String → Except Unit (Nat × String))
    (parse_xml : String → Except Unit XmlElem) : List String :=
  match http_get (sitemap_location host_url) with
  | .error _ => []
  | .ok (status, body) =>
    if status ≠ 200 then []
    else
      match parse_xml body with
      | .error _ => []
      | .ok root =>
        let sitemap_urls := loc_texts root
        if sitemap_urls = [] then [] else sitemap_urls

/-! ## Data model (`aio.py` lines 21-36, `models.py`)

`date_crawled` is a wall-clock capture timestamp
(`datetime.now`), out of scope of the embedding; the remaining fields are
kept.  `CrawlerResult` is the `aio.py`/`models.py` shape with
`unique_initial_urls`. -/

/-- One successfully fetched and extracted page, before text cleanup. -/
structure CrawledItem where
  url : String
  title : String
  text_content : String
deriving Repr, DecidableEq

/-- A crawled item after text cleanup. -/
structure ProcessedItem where
  url : String
  title : String
  text_content : String
deriving Repr, DecidableEq

/-- The terminal crawl result. -/
structure CrawlerResult where
  content : List ProcessedItem
  links : List String
  unique_initial_urls : List String
deriving Repr, DecidableEq

/-- First pass of `clean_text`: `text.replace("\\n", "\n")` (the
two-character sequence backslash-n becomes a newline). -/
def unescapeNewlines : List Char → List Char
  | '\\' :: 'n' :: rest => '\n' :: unescapeNewlines rest
  | c :: rest => c :: unescapeNewlines rest
  | [] => []

/-- Hexadecimal digit test of the `\\u([0-9a-fA-F]\x7b4\x7d)` regex. -/
def isHexDigitChar (c : Char) : Bool :=
  c.isDigit || ('a' ≤ c && c ≤ 'f') || ('A' ≤ c && c ≤ 'F')

/-- Value of a hexadecimal digit. -/
def hexVal (c : Char) : Nat :=
  if c.isDigit then c.toNat - 48
  else if 'a' ≤ c ∧ c ≤ 'f' then c.toNat - 87
  else if 'A' ≤ c ∧ c ≤ 'F' then c.toNat - 55
  else 0

/-- Second pass of `clean_text`: replace each `\\uXXXX` escape by the
character `chr(0xXXXX)`, scanning left to right as `re.sub` does.
(Python `chr` also produces lone surrogates; `Char.ofNat` maps those to
the null character — no claim depends on surrogate escapes.) -/
def unescapeUnicode : List Char → List Char
  | '\\' :: 'u' :: a :: b :: c :: d :: rest =>
    if isHexDigitChar a && isHexDigitChar b && isHexDigitChar c && isHexDigitChar d then
      Char.ofNat (4096 * hexVal a + 256 * hexVal b + 16 * hexVal c + hexVal d) ::
        unescapeUnicode rest
    else '\\' :: 'u' :: unescapeUnicode (a :: b :: c :: d :: rest)
  | c :: rest => c :: unescapeUnicode rest
  | [] => []

/-- Function `clean_text` (`aio.py` lines 39-41, `text_processor.py`,
`text_extractor.py`). -/
def clean_text (text : String) : String :=
  String.mk (unescapeUnicode (unescapeNewlines text.data))

/-- Function `process_crawled_item` (`aio.py` lines 43-49, `text_processor.py`):
clean title and text, keep the URL. -/
def process_crawled_item (item : CrawledItem) : ProcessedItem :=
  ⟨item.url, clean_text item.title, clean_text item.text_content⟩

/-! ## Crawl scheduler (`aio.py` `WebCrawler.crawl`, lines 98-175)

The Playwright/crawlee machinery (navigation, rendering, the worker
pool) is external; the repository's own logic is the request handler
closure and the surrounding setup/aggregation.  The page fetcher and the
DOM query enter the model as an oracle `pages : String → PageResult`
giving, per URL, either a fetch/extraction failure (an exception raised
before the item is appended) or the extracted title, body text and the
outcome of the link-discovery DOM evaluation.  Handler invocations are
modelled as atomic steps of a sequential loop over the request queue;
crawlee's `max_requests_per_crawl = max_links + 1` is the loop fuel.
crawlee's internal request deduplication is not modelled — the handler's
own `processed_urls` check subsumes it for every property stated here. -/

namespace Aio

/-- Outcome of the link-discovery page evaluation for one page:
either the JavaScript evaluation raised (caught by the handler's
`except`), or the list of body elements it saw. -/
inductive Discovery where
  | fail : Discovery
  | found : List PageElement → Discovery

/-- Outcome of fetching and extracting one page: either
`page.content()` / extraction raised (caught by the handler's `except`
before any item is appended), or a title, a body text and the discovery
outcome. -/
inductive PageResult where
  | fail : PageResult
  | ok : String → String → Discovery → PageResult

/-- The mutable closure state shared by the handler invocations. -/
structure CrawlState where
  processed_urls : List String
  crawled_data : List CrawledItem
  unique_initial_urls : List String
  is_first_page : Bool

/-- The `for link in page_urls` enqueue loop at the end of the handler:
re-checks the budget each iteration (nothing in the loop changes
`crawled_data`, so `data_len` is constant) and enqueues links not yet
processed. -/
def enqueue_loop (max_links data_len : Nat) (processed : List String) :
    List String → List String
  | [] => []
  | link :: rest =>
    if max_links ≤ data_len then []
    else if processed.contains link then enqueue_loop max_links data_len processed rest
    else link :: enqueue_loop max_links data_len processed rest

/-- The part of the `request_handler` body that runs after the item has
been appended and the URL marked processed (`aio.py` lines 142-157):
the second budget check, the sitemap-mode skip, and — when heuristic
discovery is active and its DOM evaluation did not raise — the
first-page capture of `unique_initial_urls` and the enqueue loop. -/
def handler_after_append (host_url : String) (max_links : Nat)
    (use_sitemap : Bool) (s1 : CrawlState) (disc : Discovery) :
    CrawlState × List String :=
  if max_links ≤ s1.crawled_data.length then (s1, [])
  else if use_sitemap then (s1, [])
  else
    match disc with
    | .fail => (s1, [])
    | .found elements =>
      let top_containers := find_top_link_containers elements
      let page_urls := extract_valid_urls top_containers host_url s1.processed_urls
      let s2 :=
        if s1.is_first_page then
          { s1 with
            unique_initial_urls := page_urls.foldl insertUnique s1.unique_initial_urls,
            is_first_page := false }
        else s1
      (s2, enqueue_loop max_links s2.crawled_data.length s2.processed_urls page_urls)

/-- The `request_handler` closure (`aio.py` lines 113-159) as one atomic
step: given the shared state, the request URL and the page outcome, it
returns the new state and the list of URLs passed to
`crawler.add_requests`.  A `PageResult.fail` models an exception raised
during fetch/extraction: it is caught, nothing is appended, nothing is
enqueued.  A `Discovery.fail` models an exception raised inside link
discovery: it is caught after the item was already appended. -/
def request_handler (host_url : String) (max_links : Nat) (use_sitemap : Bool)
    (s : CrawlState) (current_url : String) (page : PageResult) :
    CrawlState × List String :=
  if max_links ≤ s.crawled_data.length then (s, [])
  else if s.processed_urls.contains current_url then (s, [])
  else
    match page with
    | .fail => (s, [])
    | .ok title text_content disc =>
      handler_after_append host_url max_links use_sitemap
        { s with
          crawled_data := s.crawled_data ++ [⟨current_url, title, text_content⟩],
          processed_urls := current_url :: s.processed_urls }
        disc

/-- The crawlee run loop: process the request queue in order, bounded by
fuel (`max_requests_per_crawl`), appending newly added requests to the
queue.  Returns the final state and the trace of URLs that were fetched
(each dequeued request is navigated by the fetcher before its handler
runs). -/
def run_loop (host_url : String) (max_links : Nat) (use_sitemap : Bool)
    (pages : String → PageResult) :
    Nat → List String → CrawlState → CrawlState × List String
  | 0, _, s => (s, [])
  | _ + 1, [], s => (s, [])
  | fuel + 1, url :: queue, s =>
    let step := request_handler host_url max_links use_sitemap s url (pages url)
    let rest := run_loop host_url max_links use_sitemap pages fuel (queue ++ step.2) step.1
    (rest.1, url :: rest.2)

/-- The result aggregation (`aio.py` lines 169-175): truncate the
accumulated items to `max_links`, clean them, and emit their URLs as the
flat link list. -/
def aggregate (crawled_data : List CrawledItem) (max_links : Nat)
    (unique_initial_urls : List String) : CrawlerResult :=
  let processed_data := (crawled_data.take max_links).map process_crawled_item
  ⟨processed_data, processed_data.map (·.url), unique_initial_urls⟩

/-- The initial request list handed to `crawler.run` (`aio.py` lines
161-165): `sitemap_urls[:max_links]` in sitemap mode, else the single
host URL.  In sitemap mode with `sitemap_urls = None`, subscripting
`None` raises `TypeError` inside the `try`; the exception is caught and
no run happens, modelled as `none`. -/
def initial_requests (host_url : String) (max_links : Nat) (use_sitemap : Bool)
    (sitemap_urls : Option (List String)) : Option (List String) :=
  if use_sitemap then
    match sitemap_urls with
    | some l => some (l.take max_links)
    | none => none
  else some [host_url]

/-- Method `WebCrawler.crawl` (`aio.py` lines 98-175).  Returns `Except.error`
exactly for the up-front `ValueError` on an invalid host URL; otherwise
the run loop is executed (every exception inside it is caught, per-page
by the handler's `except` and globally by the `try` around
`crawler.run`) and the aggregated result is returned together with the
trace of fetched URLs. -/
def crawl (host_url : String) (max_links : Nat) (use_sitemap : Bool)
    (sitemap_urls : Option (List String)) (pages : String → PageResult) :
    Except String (CrawlerResult × List String) :=
  if !(is_valid_url host_url) then .error ("Invalid host URL: " ++ host_url)
  else
    let s0 : CrawlState :=
      { processed_urls := []
        crawled_data := []
        unique_initial_urls := pySetList (sitemap_urls.getD [])
        is_first_page := !use_sitemap }
    let runRes :=
      match initial_requests host_url max_links use_sitemap sitemap_urls with
      | some q => run_loop host_url max_links use_sitemap pages (max_links + 1) q s0
      | none => (s0, [])
    .ok (aggregate runRes.1.crawled_data max_links runRes.1.unique_initial_urls, runRes.2)

end Aio

/-! ## `remove_url_by_index` (`utils.py` lines 7-13, `text_extractor.py`
lines 23-29) -/

/-- Function `remove_url_by_index`: when `0 <= index < len(data)` (Python chained
comparison over the integer index), `data.pop(index)` removes and
returns the element at that position; otherwise the list is returned
unchanged with `None`.  The function never raises. -/
def remove_url_by_index {α : Type} (data : List α) (index : Int) :
    List α × Option α :=
  if 0 ≤ index ∧ index < (data.length : Int) then
    (data.eraseIdx index.toNat, data[index.toNat]?)
  else (data, none)

/-! ## The early `crawler.py` variant, with explicit interleaving

`crawl_website` (`crawler.py` lines 9-103) predates the Result
Aggregator: line 103 returns `crawled_data` verbatim, with no
truncation.  Its only budget control is the handler-entry check
`if links_count >= max_links: return` (line 53) — but the append
(line 70) and the counter increment (line 78) are separated from that
check by `await context.page.content()` (line 62), and the crawl runs
`desired_concurrency=50` with `max_requests_per_crawl = max_links * 2`
(line 20).  So handlers of distinct queued URLs can interleave at the
await: several can pass the entry check before any of them appends.

The model below makes that one suspension point explicit.  A handler
execution is two atomic phases: `Event.start` covers the dequeue and
the entry guards of lines 53-58, then suspends at the line-62 await;
`Event.complete` covers extraction, append, counter increment,
discovery, the first-page capture and the enqueue loop of lines 62-100
(further awaits inside that region would only add interleavings; the
schedules used here are realizable already).  Events whose
preconditions fail (URL not queued / not in flight, fetch cap reached)
are no-ops, so every run of `run_events` is a reachable outcome of the
concurrent semantics.  The handler of `crawler.py` has no try/except:
`Aio.PageResult.fail` models the exception propagating to crawlee,
which records the failed request and continues.  The side-effecting
JSON dump of `initial_urls` (lines 91-93) is not modelled. -/

namespace CrawlerPy

/-- The link-collection loop of `crawler.py` lines 82-87: join each
container link against the host URL and keep it when it is a string
prefix extension of the host URL, unprocessed, and valid per the local
validator (identical to `BaseCrawler.is_valid_url`); no deduplication. -/
def page_urls_of (containers : List Container) (host_url : String)
    (processed : List String) : List String :=
  containers.flatMap fun c =>
    c.links.filterMap fun link =>
      let full_url := pyUrljoin host_url link
      if pyStartsWith full_url host_url && !(processed.contains full_url)
          && BaseCrawler.is_valid_url full_url
      then some full_url else none

/-- The shared closure state of `crawl_website`, plus the crawlee
request queue, the set of handlers suspended at the line-62 await, and
the count of requests started (bounded by `max_requests_per_crawl`). -/
structure CrawlState where
  processed_urls : List String
  links_count : Nat
  crawled_data : List CrawledItem
  initial_urls : List String
  is_first_page : Bool
  queue : List String
  in_flight : List String
  requests_started : Nat

/-- One interleaving event: a handler starts (runs up to the line-62
await) or completes (resumes from that await and runs to the end). -/
inductive Event where
  | start : String → Event
  | complete : String → Aio.PageResult → Event

/-- Phase one of a handler execution: crawlee dequeues a queued URL
(subject to `max_requests_per_crawl = max_links * 2`), the handler runs
the budget check of line 53 and the dedup check of line 57, and — if
both pass — suspends at the await of line 62. -/
def start_step (max_links : Nat) (s : CrawlState) (url : String) : CrawlState :=
  if !(s.queue.contains url) then s
  else if max_links * 2 ≤ s.requests_started then s
  else
    let s0 := { s with
      queue := s.queue.erase url,
      requests_started := s.requests_started + 1 }
    if max_links ≤ s0.links_count then s0
    else if s0.processed_urls.contains url then s0
    else { s0 with in_flight := url :: s0.in_flight }

/-- Phase two of a handler execution, resuming from the line-62 await
with NO re-check of the budget: append the item (line 70), mark the URL
processed (line 77), increment the counter (line 78), then run link
discovery, the first-page capture (`initial_urls = page_urls`,
verbatim) and the enqueue loop (lines 80-100). -/
def complete_step (host_url : String) (max_links : Nat) (s : CrawlState)
    (url : String) (page : Aio.PageResult) : CrawlState :=
  if !(s.in_flight.contains url) then s
  else
    let s0 := { s with in_flight := s.in_flight.erase url }
    match page with
    | .fail => s0
    | .ok title text_content disc =>
      let s1 := { s0 with
        crawled_data := s0.crawled_data ++ [⟨url, title, text_content⟩],
        processed_urls := url :: s0.processed_urls,
        links_count := s0.links_count + 1 }
      match disc with
      | .fail => s1
      | .found elements =>
        let top_containers := find_top_link_containers elements
        let page_urls := page_urls_of top_containers host_url s1.processed_urls
        let s2 :=
          if s1.is_first_page then
            { s1 with initial_urls := page_urls, is_first_page := false }
          else s1
        { s2 with
          queue := s2.queue ++
            Aio.enqueue_loop max_links s2.links_count s2.processed_urls page_urls }

/-- Run a schedule of interleaving events. -/
def run_events (host_url : String) (max_links : Nat) :
    List Event → CrawlState → CrawlState
  | [], s => s
  | .start url :: rest, s =>
    run_events host_url max_links rest (start_step max_links s url)
  | .complete url page :: rest, s =>
    run_events host_url max_links rest (complete_step host_url max_links s url page)

/-- `crawl_website` (`crawler.py` lines 9-103) under a given
interleaving schedule: the queue starts as `[host_url]` (there is no
host validation in this variant) and line 103 returns the accumulated
`crawled_data` and `initial_urls` with no truncation. -/
def crawl_website (host_url : String) (max_links : Nat)
    (events : List Event) : List CrawledItem × List String :=
  let sF := run_events host_url max_links events
    ⟨[], 0, [], [], true, [host_url], [], 0⟩
  (sF.crawled_data, sF.initial_urls)

/-- A concrete realizable schedule with budget 2: the host page is
processed alone and enqueues two in-domain links; both link handlers
then pass the entry check while `links_count = 1` — the overshoot race
— and both append after the await, yielding three items. -/
def overshoot_schedule : List Event :=
  [Event.start "https://example.com",
   Event.complete "https://example.com"
     (Aio.PageResult.ok "Home" "home text"
       (Aio.Discovery.found
         [⟨"nav", ["https://example.com/a", "https://example.com/b"]⟩])),
   Event.start "https://example.com/a",
   Event.start "https://example.com/b",
   Event.complete "https://example.com/a"
     (Aio.PageResult.ok "A" "text a" (Aio.Discovery.found [])),
   Event.complete "https://example.com/b"
     (Aio.PageResult.ok "B" "text b" (Aio.Discovery.found []))]

end CrawlerPy

/-! ## The raise behaviour of `web_crawler.py`

`WebCrawler.crawl` of `web_crawler.py` guards the host URL with the
inherited `BaseCrawler.is_valid_url` (lines 33-34) and wraps only
`crawler.run` in its try/except (lines 96-103).  Its return statement
(lines 105-109) then constructs `models.CrawlerResult` with the keyword
arguments `content=`, `links=`, `initial_urls=` — but `models.py`
declares the required fields `content`, `links` and
`unique_initial_urls`.  Pydantic's default configuration ignores the
unknown `initial_urls` keyword and raises a `ValidationError` for the
missing required `unique_initial_urls` (the `content` items, plain
`CrawledItem`s where `List[ProcessedItem]` is declared, would also fail
validation); the construction sits outside the try, so the error
propagates to the caller on every invocation that reaches the return —
contradicting the method's own docstring, which promises
`Raises: ValueError: If the host_url is invalid.` -/

/-- Field names declared (all required, no defaults) by
`models.CrawlerResult` (`models.py` lines 17-20). -/
def crawlerResultFields : List String :=
  ["content", "links", "unique_initial_urls"]

/-- Keyword-argument names supplied by the `CrawlerResult(...)` call at
`web_crawler.py` lines 105-109. -/
def webCrawlerReturnKwargNames : List String :=
  ["content", "links", "initial_urls"]

/-- Modelled pydantic required-field check at default configuration:
unknown keywords are ignored, and every declared field with no matching
supplied keyword is reported missing (raising `ValidationError` when
the list is non-empty). -/
def pydanticMissingFields (declared supplied : List String) : List String :=
  declared.filter fun f => !(supplied.contains f)

namespace WebCrawlerPy

/-- The raise behaviour of `WebCrawler.crawl` of `web_crawler.py`:
the `ValueError` guard of lines 33-34 (using the inherited
`BaseCrawler` validator), and otherwise the pydantic validation of the
`CrawlerResult` construction at lines 105-109, which reports every
declared field left unsupplied.  The crawl run in between never
determines the outcome (its exceptions are caught at lines 96-103), so
it is omitted from this outcome-level model; `Except.ok` is reached
exactly when no required field is missing. -/
def crawl_outcome (host_url : String) : Except String Unit :=
  if !(BaseCrawler.is_valid_url host_url) then
    .error ("ValueError: Invalid host URL: " ++ host_url)
  else
    match pydanticMissingFields crawlerResultFields webCrawlerReturnKwargNames with
    | [] => .ok ()
    | f :: _ => .error ("ValidationError: " ++ f ++ " field required")

end WebCrawlerPy

/-! ## Helper lemmas -/

theorem mem_insertUnique {l : List String} {a b : String} :
    b ∈ insertUnique l a ↔ b ∈ l ∨ b = a := by
  unfold insertUnique
  split
  · next h => exact ⟨Or.inl, fun hb => hb.elim id fun e => e ▸ h⟩
  · simp [List.mem_append]

theorem mem_foldl_insertUnique {b : String} :
    ∀ (l acc : List String), b ∈ l.foldl insertUnique acc ↔ b ∈ acc ∨ b ∈ l
  | [], acc => by simp
  | a :: l, acc => by
    rw [List.foldl_cons, mem_foldl_insertUnique l, mem_insertUnique]
    simp [or_assoc, or_comm, or_left_comm]

theorem mem_pySetList {l : List String} {b : String} :
    b ∈ pySetList l ↔ b ∈ l := by
  rw [pySetList, mem_foldl_insertUnique]
  simp

theorem in_scope_of_mem_extract {containers : List Container}
    {host_url : String} {processed : List String} {u : String}
    (h : u ∈ Aio.extract_valid_urls containers host_url processed) :
    in_scope u host_url = true := by
  rw [Aio.extract_valid_urls, mem_pySetList, List.mem_flatMap] at h
  obtain ⟨c, -, hmem⟩ := h
  rw [List.mem_filterMap] at hmem
  obtain ⟨link, -, heq⟩ := hmem
  by_cases hcond :
      (in_scope (pyUrljoin host_url link) host_url
        && !(processed.contains (pyUrljoin host_url link))
        && Aio.is_valid_url (pyUrljoin host_url link)) = true
  · rw [if_pos hcond] at heq
    obtain ⟨⟨h1, -⟩, -⟩ :
        (in_scope (pyUrljoin host_url link) host_url = true ∧ _) ∧ _ :=
      by simpa [Bool.and_eq_true] using hcond
    cases heq
    exact h1
  · rw [if_neg hcond] at heq
    cases heq

theorem filter_orderedInsert_count (a : Container) (n : Nat) :
    ∀ l : List Container,
      (List.orderedInsert contLe a l).filter (fun c => c.linkCount == n) =
        if a.linkCount == n then a :: l.filter (fun c => c.linkCount == n)
        else l.filter (fun c => c.linkCount == n)
  | [] => by
    by_cases han : (a.linkCount == n) = true <;>
      simp [List.orderedInsert, List.filter_cons, han]
  | b :: l => by
    by_cases hr : contLe a b
    · by_cases han : (a.linkCount == n) = true <;>
        simp [List.orderedInsert, hr, List.filter_cons, han]
    · have ih := filter_orderedInsert_count a n l
      by_cases hbn : (b.linkCount == n) = true
      · have han : (a.linkCount == n) = false := by
          have hlt : a.linkCount < b.linkCount := Nat.lt_of_not_le hr
          have hbn' : b.linkCount = n := by simpa using hbn
          have hne : ¬ a.linkCount = n := fun ha => by omega
          simpa using hne
        simp [List.orderedInsert, hr, List.filter_cons, hbn, han, ih]
      · by_cases han : (a.linkCount == n) = true <;>
          simp [List.orderedInsert, hr, List.filter_cons, hbn, han, ih]

theorem filter_insertionSort_count (n : Nat) :
    ∀ l : List Container,
      (List.insertionSort contLe l).filter (fun c => c.linkCount == n) =
        l.filter (fun c => c.linkCount == n)
  | [] => rfl
  | a :: l => by
    rw [List.insertionSort, filter_orderedInsert_count, List.filter_cons,
      filter_insertionSort_count n l]

/-- The two state components that the duplicate-freedom argument tracks:
the accumulated items carry pairwise-distinct URLs, and every
accumulated URL is in the processed set. -/
def UrlsOk (s : Aio.CrawlState) : Prop :=
  (s.crawled_data.map (·.url)).Nodup ∧
    ∀ it ∈ s.crawled_data, it.url ∈ s.processed_urls

theorem urlsOk_append {s : Aio.CrawlState} {u : String} (t x : String)
    (h : UrlsOk s) (hu : u ∉ s.processed_urls) :
    UrlsOk
      ({ s with
         crawled_data := s.crawled_data ++ [⟨u, t, x⟩],
         processed_urls := u :: s.processed_urls } : Aio.CrawlState) := by
  constructor
  · show ((s.crawled_data ++ [(⟨u, t, x⟩ : CrawledItem)]).map (·.url)).Nodup
    rw [List.map_append]
    refine List.Nodup.append h.1 (List.nodup_singleton _) ?_
    intro v hv hv'
    simp only [List.map_cons, List.map_nil, List.mem_singleton] at hv'
    subst hv'
    rw [List.mem_map] at hv
    obtain ⟨it, hit, hitu⟩ := hv
    exact hu (hitu ▸ h.2 it hit)
  · intro it hit
    rcases List.mem_append.mp hit with hold | hnew
    · exact List.mem_cons_of_mem _ (h.2 it hold)
    · rw [List.mem_singleton] at hnew
      subst hnew
      exact List.mem_cons_self _ _

theorem handler_after_append_fields (host_url : String) (max_links : Nat)
    (use_sitemap : Bool) (s1 : Aio.CrawlState) (disc : Aio.Discovery) :
    (Aio.handler_after_append host_url max_links use_sitemap s1 disc).1.crawled_data
        = s1.crawled_data ∧
      (Aio.handler_after_append host_url max_links use_sitemap s1 disc).1.processed_urls
        = s1.processed_urls := by
  rw [Aio.handler_after_append.eq_def]
  split
  · exact ⟨rfl, rfl⟩
  · split
    · exact ⟨rfl, rfl⟩
    · cases disc with
      | fail => exact ⟨rfl, rfl⟩
      | found elements =>
        simp only
        split <;> exact ⟨rfl, rfl⟩

theorem request_handler_urlsOk (host_url : String) (max_links : Nat)
    (use_sitemap : Bool) (s : Aio.CrawlState) (u : String) (p : Aio.PageResult)
    (h : UrlsOk s) :
    UrlsOk (Aio.request_handler host_url max_links use_sitemap s u p).1 := by
  rw [Aio.request_handler.eq_def]
  split
  · exact h
  · split
    · exact h
    · next hmem =>
      have hu : u ∉ s.processed_urls := by simpa using hmem
      cases p with
      | fail => exact h
      | ok title text disc =>
        have h1 := urlsOk_append title text h hu
        have hf := handler_after_append_fields host_url max_links use_sitemap
          ({ s with
             crawled_data := s.crawled_data ++ [⟨u, title, text⟩],
             processed_urls := u :: s.processed_urls }) disc
        exact ⟨hf.1 ▸ h1.1, fun it hit => hf.2 ▸ h1.2 it (hf.1 ▸ hit)⟩

theorem run_loop_urlsOk (host_url : String) (max_links : Nat)
    (use_sitemap : Bool) (pages : String → Aio.PageResult) :
    ∀ (fuel : Nat) (queue : List String) (s : Aio.CrawlState), UrlsOk s →
      UrlsOk (Aio.run_loop host_url max_links use_sitemap pages fuel queue s).1
  | 0, _, _, h => h
  | _ + 1, [], _, h => h
  | fuel + 1, url :: _, s, h =>
    run_loop_urlsOk host_url max_links use_sitemap pages fuel _ _
      (request_handler_urlsOk host_url max_links use_sitemap s url (pages url) h)

/-! ## Claims -/

/-- C1 amended: for every crawl of the `aio.py` form (the variants with
a Result Aggregator), the returned result satisfies
`result.content.length ≤ max_links`.  The first conjunct is the Result
Aggregator in isolation: it truncates an arbitrary accumulated item
list — in particular one that concurrent workers overshot past the
budget — to at most `max_links` items.  The second conjunct is the
bound on every successful `crawl` return.  The early `crawler.py`
variant has no such truncation and its result can exceed the budget
under concurrent overshoot: see `C1_counterexample_crawler_overshoot`. -/
theorem C1_content_within_budget :
    (∀ (crawled_data : List CrawledItem) (max_links : Nat) (uii : List String),
      (Aio.aggregate crawled_data max_links uii).content.length ≤ max_links) ∧
    ∀ (host_url : String) (max_links : Nat) (use_sitemap : Bool)
      (sitemap_urls : Option (List String)) (pages : String → Aio.PageResult)
      (r : CrawlerResult) (trace : List String),
      Aio.crawl host_url max_links use_sitemap sitemap_urls pages =
        .ok (r, trace) →
      r.content.length ≤ max_links := by
  have hagg : ∀ (crawled_data : List CrawledItem) (max_links : Nat)
      (uii : List String),
      (Aio.aggregate crawled_data max_links uii).content.length ≤ max_links := by
    intro crawled_data max_links uii
    simp only [Aio.aggregate, List.length_map, List.length_take]
    exact Nat.min_le_left _ _
  refine ⟨hagg, ?_⟩
  intro host_url max_links use_sitemap sitemap_urls pages r trace hok
  rw [Aio.crawl] at hok
  by_cases hv : Aio.is_valid_url host_url
  · rw [if_neg (by simp [hv])] at hok
    simp only at hok
    cases hok
    exact hagg _ _ _
  · rw [if_pos (by simpa using hv)] at hok
    cases hok

/-- Witness for C1 at a concrete crawl. -/
theorem C1_content_within_budget_witness :
    Aio.crawl "https://example.com" 0 false none (fun _ => Aio.PageResult.fail) =
      .ok (⟨[], [], []⟩, ["https://example.com"]) ∧
    (⟨[], [], []⟩ : CrawlerResult).content.length ≤ 0 :=
  ⟨by rfl,
    C1_content_within_budget.2 "https://example.com" 0 false none
      (fun _ => Aio.PageResult.fail) ⟨[], [], []⟩ ["https://example.com"] (by rfl)⟩

/-- C1 counterexample: `crawl_website` of `crawler.py` returns the
accumulated `crawled_data` with no truncation (line 103), and its
budget check is separated from the append by an await, so under the
concurrent overshoot the claim itself describes the bound fails: with
`max_links = 2` and a realizable schedule — the host page enqueues two
links, both link handlers pass the entry check at `links_count = 1`,
then both append — the returned content has 3 items, exceeding the
budget.  Every event precondition (queued URL, in-flight URL, the
`max_links * 2` fetch cap) is enforced by the step functions, so this
outcome is reachable in the modelled concurrent semantics. -/
theorem C1_counterexample_crawler_overshoot :
    (CrawlerPy.crawl_website "https://example.com" 2
        CrawlerPy.overshoot_schedule).1.length = 3 ∧
      ¬ ((CrawlerPy.crawl_website "https://example.com" 2
        CrawlerPy.overshoot_schedule).1.length ≤ 2) := by
  constructor
  · rfl
  · decide

/-- C2 counterexample: the claim requires every variant of
`is_valid_url` to accept only URLs with a non-empty authority, but the
validator of `base_crawler.py` (inherited by `web_crawler.py`, and
identical in `crawler.py`) accepts `"http://"`, whose parsed authority
is empty. -/
theorem C2_counterexample_empty_authority :
    BaseCrawler.is_valid_url "http://" = true ∧
      (pyUrlparse "http://" "").netloc = "" := by
  constructor
  · decide
  · decide

/-- C2 amended: the `aio.py` validator accepts a URL exactly when the
scheme is http or https, the authority is non-empty, and the path does
not start with `tel:` — equivalently, it is the `base_crawler.py` /
`crawler.py` test strengthened by the non-empty-authority requirement,
which those two variants omit.  All validators are pure functions of
their argument.  Concrete separations: `"http://"` is rejected by the
`aio.py` validator but accepted by the base one; `"tel:12345"` is
rejected by both. -/
theorem C2_validator_characterization :
    (∀ url : String,
      Aio.is_valid_url url =
        (BaseCrawler.is_valid_url url && (pyUrlparse url "").netloc != "")) ∧
    (∀ url : String,
      BaseCrawler.is_valid_url url =
        (((pyUrlparse url "").scheme == "http"
            || (pyUrlparse url "").scheme == "https") &&
          !(pyStartsWith (pyUrlparse url "").path "tel:"))) ∧
    Aio.is_valid_url "https://example.com/a" = true ∧
    Aio.is_valid_url "http://" = false ∧
    BaseCrawler.is_valid_url "http://" = true ∧
    Aio.is_valid_url "tel:12345" = false ∧
    BaseCrawler.is_valid_url "tel:12345" = false := by
  refine ⟨?_, fun url => rfl, by decide, by decide, by decide, by decide, by decide⟩
  intro url
  simp only [Aio.is_valid_url, BaseCrawler.is_valid_url]
  cases (pyUrlparse url "").scheme == "http" <;>
    cases (pyUrlparse url "").scheme == "https" <;>
      cases (pyUrlparse url "").netloc != "" <;>
        cases pyStartsWith (pyUrlparse url "").path "tel:" <;> rfl

/-- C3 counterexample: the claim states the domain scoper accepts
exactly when, after stripping a leading `www.` label from both
authorities, the candidate host equals or is a dotted suffix of the
target host.  For candidate authority `wwwww.example.com` against host
`example.com` that rule accepts (no leading `www.` label; dotted-suffix
match), but the code's `replace("www.", "")` rewrites the authority to
`wwexample.com` (removing an interior occurrence) and rejects. -/
theorem C3_counterexample_interior_www :
    in_scope "https://wwwww.example.com/x" "https://example.com" = false ∧
      in_scope_spec "https://wwwww.example.com/x" "https://example.com" = true := by
  constructor
  · decide
  · decide

/-- C3 amended: the domain scoper of `aio.py` removes every occurrence
of the substring `www.` from both authorities (Python `str.replace`,
not only a leading label) and then accepts exactly on host equality or
dotted-suffix; every URL emitted by `extract_valid_urls` passes this
check against the host; and the three examples of the claim hold as
stated. -/
theorem C3_domain_scoper :
    (∀ candidate host_url : String,
      in_scope candidate host_url =
        (let host_domain :=
          String.mk (removeWww (pyUrlparse host_url "").netloc.data)
         let url_domain :=
          String.mk (removeWww (pyUrlparse candidate "").netloc.data)
         url_domain == host_domain
           || pyEndsWith url_domain ("." ++ host_domain))) ∧
    (∀ (containers : List Container) (host_url : String)
      (processed : List String) (u : String),
      u ∈ Aio.extract_valid_urls containers host_url processed →
        in_scope u host_url = true) ∧
    in_scope "https://www.example.com/x" "https://example.com" = true ∧
    in_scope "https://blog.example.com/x" "https://example.com" = true ∧
    in_scope "https://example.org/x" "https://example.com" = false :=
  ⟨fun _ _ => rfl,
    fun _ _ _ _ h => in_scope_of_mem_extract h,
    by decide, by decide, by decide⟩

/-- Witness for C3's amended theorem: a concrete link extraction whose
output member passes the scope check. -/
theorem C3_domain_scoper_witness :
    Aio.extract_valid_urls [⟨"nav", 1, ["https://example.com/a"]⟩]
        "https://example.com" [] = ["https://example.com/a"] ∧
    in_scope "https://example.com/a" "https://example.com" = true :=
  ⟨by decide,
    C3_domain_scoper.2.1 [⟨"nav", 1, ["https://example.com/a"]⟩]
      "https://example.com" [] "https://example.com/a" (by decide)⟩

/-- C4: link discovery keeps at most 3 containers; the kept list is
sorted by descending anchor count; no kept container has fewer anchors
than an element it excluded; the sort is stable (elements of equal
anchor count keep their document order: filtering the sorted list at any
fixed count returns exactly the document-ordered sublist at that count);
and on a page with anchor counts `[15, 10, 5, 2]` exactly the 15-, 10-
and 5-anchor elements contribute. -/
theorem C4_top_link_containers :
    ∀ elements : List PageElement,
      (find_top_link_containers elements).length ≤ 3 ∧
      List.Sorted contLe (find_top_link_containers elements) ∧
      (∀ a ∈ find_top_link_containers elements,
        ∀ e ∈ elements, toContainer e ∉ find_top_link_containers elements →
          e.anchors.length ≤ a.linkCount) ∧
      (∀ n : Nat,
        (sorted_containers elements).filter (fun c => c.linkCount == n) =
          (link_containers elements).filter (fun c => c.linkCount == n)) ∧
      (find_top_link_containers
          [⟨"a", List.replicate 15 "u"⟩, ⟨"b", List.replicate 10 "u"⟩,
           ⟨"c", List.replicate 5 "u"⟩, ⟨"d", List.replicate 2 "u"⟩]).map
          (·.linkCount) = [15, 10, 5] := by
  intro elements
  have hsorted : List.Sorted contLe (sorted_containers elements) :=
    List.sorted_insertionSort contLe (link_containers elements)
  refine ⟨?_, ?_, ?_, fun n => filter_insertionSort_count n _, by decide⟩
  · simp only [find_top_link_containers, List.length_take]
    exact Nat.min_le_left _ _
  · exact hsorted.sublist (List.take_sublist 3 _)
  · intro a ha e he hne
    by_cases h0 : 0 < e.anchors.length
    · have hmemf : toContainer e ∈ link_containers elements :=
        List.mem_map_of_mem toContainer
          (List.mem_filter.mpr ⟨he, decide_eq_true h0⟩)
      have hmems : toContainer e ∈ sorted_containers elements :=
        (List.perm_insertionSort contLe (link_containers elements)).mem_iff.mpr hmemf
      have hsplit := List.take_append_drop 3 (sorted_containers elements)
      rcases List.mem_append.mp (hsplit ▸ hmems) with htake | hdrop
      · exact absurd htake hne
      · exact List.Sorted.rel_of_mem_take_of_mem_drop hsorted ha hdrop
    · have : e.anchors.length = 0 := Nat.eq_zero_of_not_pos h0
      omega

/-- Witness for C4 at the concrete `[15, 10, 5, 2]` page: the excluded
2-anchor element has no more anchors than the kept 15-anchor one. -/
theorem C4_top_link_containers_witness :
    (⟨"d", List.replicate 2 "u"⟩ : PageElement).anchors.length ≤
      (⟨"a", 15, List.replicate 15 "u"⟩ : Container).linkCount :=
  (C4_top_link_containers
      [⟨"a", List.replicate 15 "u"⟩, ⟨"b", List.replicate 10 "u"⟩,
       ⟨"c", List.replicate 5 "u"⟩, ⟨"d", List.replicate 2 "u"⟩]).2.2.1
    ⟨"a", 15, List.replicate 15 "u"⟩ (by decide)
    ⟨"d", List.replicate 2 "u"⟩ (by decide) (by decide)

/-- C5: `fetch_sitemap` is total (it returns a list for every transport
and parser outcome — the embedded function cannot raise) and degrades
every failure to `[]`: a transport error, a non-success status, an XML
parse failure, or zero truthy `url/loc` entries all yield `[]`; in the
remaining case the `loc` texts are returned as an ordered list in the
parser's document traversal order. -/
theorem C5_fetch_sitemap_contract :
    ∀ (host_url : String) (http_get : String → Except Unit (Nat × String))
      (parse_xml : String → Except Unit XmlElem) (status : Nat) (body : String)
      (root : XmlElem),
      (http_get (sitemap_location host_url) = .error () →
        fetch_sitemap host_url http_get parse_xml = []) ∧
      (http_get (sitemap_location host_url) = .ok (status, body) →
        status ≠ 200 →
        fetch_sitemap host_url http_get parse_xml = []) ∧
      (http_get (sitemap_location host_url) = .ok (status, body) →
        parse_xml body = .error () →
        fetch_sitemap host_url http_get parse_xml = []) ∧
      (http_get (sitemap_location host_url) = .ok (status, body) →
        parse_xml body = .ok root → loc_texts root = [] →
        fetch_sitemap host_url http_get parse_xml = []) ∧
      (http_get (sitemap_location host_url) = .ok (status, body) →
        status = 200 → parse_xml body = .ok root →
        fetch_sitemap host_url http_get parse_xml = loc_texts root) := by
  intro host_url http_get parse_xml status body root
  refine ⟨?_, ?_, ?_, ?_, ?_⟩
  · intro h
    rw [fetch_sitemap, h]
  · intro h hs
    rw [fetch_sitemap, h]
    simp [hs]
  · intro h hp
    rw [fetch_sitemap, h]
    by_cases hs : status = 200
    · simp [hs, hp]
    · simp [hs]
  · intro h hp hl
    rw [fetch_sitemap, h]
    by_cases hs : status = 200
    · simp [hs, hp, hl]
    · simp [hs]
  · intro h hs hp
    rw [fetch_sitemap, h]
    simp only [hs, ne_eq, not_true_eq_false, if_false, hp]
    by_cases hl : loc_texts root = [] <;> simp [hl]

/-- Witness for C5 at a concrete sitemap with two entries. -/
theorem C5_fetch_sitemap_contract_witness :
    fetch_sitemap "https://example.com"
        (fun _ => .ok (200, "sitemap-body"))
        (fun _ => .ok
          (.node "root" none
            [.node ("\x7b" ++ sitemap_ns ++ "\x7durl") none
              [.node ("\x7b" ++ sitemap_ns ++ "\x7dloc")
                (some "https://example.com/a") []],
             .node ("\x7b" ++ sitemap_ns ++ "\x7durl") none
              [.node ("\x7b" ++ sitemap_ns ++ "\x7dloc")
                (some "https://example.com/b") []]])) =
      ["https://example.com/a", "https://example.com/b"] :=
  (C5_fetch_sitemap_contract "https://example.com"
      (fun _ => .ok (200, "sitemap-body"))
      (fun _ => .ok
        (.node "root" none
          [.node ("\x7b" ++ sitemap_ns ++ "\x7durl") none
            [.node ("\x7b" ++ sitemap_ns ++ "\x7dloc")
              (some "https://example.com/a") []],
           .node ("\x7b" ++ sitemap_ns ++ "\x7durl") none
            [.node ("\x7b" ++ sitemap_ns ++ "\x7dloc")
              (some "https://example.com/b") []]]))
      200 "sitemap-body"
      (.node "root" none
        [.node ("\x7b" ++ sitemap_ns ++ "\x7durl") none
          [.node ("\x7b" ++ sitemap_ns ++ "\x7dloc")
            (some "https://example.com/a") []],
         .node ("\x7b" ++ sitemap_ns ++ "\x7durl") none
          [.node ("\x7b" ++ sitemap_ns ++ "\x7dloc")
            (some "https://example.com/b") []]])).2.2.2.2
    rfl rfl rfl |>.trans (by rfl)

/-- C6 (code bug in `web_crawler.py`): the claim — `crawl` raises to
the caller exactly when the host URL fails validation, before any fetch
— matches `aio.py` and the docstring of `web_crawler.py`, but
`web_crawler.py`'s own return statement raises a pydantic
`ValidationError` on every invocation whose host passes validation (it
supplies `initial_urls=` where `models.CrawlerResult` requires
`unique_initial_urls`), so that variant never returns normally.
Conjuncts: the concrete failing input `"https://example.com"` passes
validation yet the `web_crawler.py` outcome is the `ValidationError`;
that outcome is never `ok` for any host; `"tel:12345"` is rejected by
its `ValueError` guard; and the consolidated `aio.py` `crawl` does
behave as claimed — it errors exactly on invalid hosts, independent of
the page oracle, rejecting `"tel:12345"` with the `ValueError`
message. -/
theorem C6_host_validation_gate :
    (BaseCrawler.is_valid_url "https://example.com" = true ∧
      WebCrawlerPy.crawl_outcome "https://example.com" =
        .error "ValidationError: unique_initial_urls field required") ∧
    (∀ host_url : String, WebCrawlerPy.crawl_outcome host_url ≠ .ok ()) ∧
    WebCrawlerPy.crawl_outcome "tel:12345" =
      .error "ValueError: Invalid host URL: tel:12345" ∧
    ∀ (max_links : Nat) (use_sitemap : Bool)
      (sitemap_urls : Option (List String)) (pages : String → Aio.PageResult),
      (∀ host_url : String,
        (Aio.crawl host_url max_links use_sitemap sitemap_urls pages).isOk
            = false ↔
          Aio.is_valid_url host_url = false) ∧
      Aio.crawl "tel:12345" max_links use_sitemap sitemap_urls pages =
        .error "Invalid host URL: tel:12345" := by
  refine ⟨⟨by decide, by rfl⟩, ?_, by rfl, ?_⟩
  · intro host_url
    by_cases hv : BaseCrawler.is_valid_url host_url <;>
      simp [WebCrawlerPy.crawl_outcome, hv, pydanticMissingFields,
        crawlerResultFields, webCrawlerReturnKwargNames]
  · intro max_links use_sitemap sitemap_urls pages
    constructor
    · intro host_url
      by_cases hv : Aio.is_valid_url host_url <;>
        simp [Aio.crawl, hv, Except.isOk, Except.toBool]
    · have htel : Aio.is_valid_url "tel:12345" = false := by decide
      simp [Aio.crawl, htel]

/-- C7: a per-page fetch/extraction failure is absorbed by the handler:
the state is unchanged (the URL contributes no item) and nothing is
enqueued; the run loop simply records the fetch and moves on to the rest
of the queue; and once the host URL has passed validation, `crawl`
always returns a result — no exception propagates out. -/
theorem C7_per_page_failure_isolated :
    ∀ (host_url : String) (max_links : Nat) (use_sitemap : Bool)
      (sitemap_urls : Option (List String)) (pages : String → Aio.PageResult)
      (s : Aio.CrawlState) (url : String) (fuel : Nat) (queue : List String),
      (Aio.request_handler host_url max_links use_sitemap s url
          Aio.PageResult.fail = (s, [])) ∧
      (pages url = Aio.PageResult.fail →
        Aio.run_loop host_url max_links use_sitemap pages (fuel + 1)
            (url :: queue) s =
          ((Aio.run_loop host_url max_links use_sitemap pages fuel queue s).1,
            url ::
              (Aio.run_loop host_url max_links use_sitemap pages fuel queue s).2)) ∧
      (Aio.is_valid_url host_url = true →
        (Aio.crawl host_url max_links use_sitemap sitemap_urls pages).isOk
          = true) := by
  intro host_url max_links use_sitemap sitemap_urls pages s url fuel queue
  have hfail : Aio.request_handler host_url max_links use_sitemap s url
      Aio.PageResult.fail = (s, []) := by
    rw [Aio.request_handler.eq_def]
    split
    · rfl
    · split
      · rfl
      · rfl
  refine ⟨hfail, ?_, ?_⟩
  · intro hf
    simp only [Aio.run_loop, hf, hfail, List.append_nil]
  · intro hv
    simp [Aio.crawl, hv, Except.isOk, Except.toBool]

/-- Witness for C7 at a concrete failing page. -/
theorem C7_per_page_failure_isolated_witness :
    (Aio.request_handler "https://example.com" 5 false
        ⟨[], [], [], true⟩ "https://example.com/a" Aio.PageResult.fail =
      (⟨[], [], [], true⟩, [])) ∧
    (Aio.crawl "https://example.com" 5 false none
        (fun _ => Aio.PageResult.fail)).isOk = true :=
  ⟨(C7_per_page_failure_isolated "https://example.com" 5 false none
      (fun _ => Aio.PageResult.fail) ⟨[], [], [], true⟩ "https://example.com/a"
      0 []).1,
    (C7_per_page_failure_isolated "https://example.com" 5 false none
      (fun _ => Aio.PageResult.fail) ⟨[], [], [], true⟩ "https://example.com/a"
      0 []).2.2 (by decide)⟩

theorem aggregate_url_map (data : List CrawledItem) (m : Nat)
    (uii : List String) :
    (Aio.aggregate data m uii).content.map (·.url) =
      (data.take m).map (·.url) := by
  simp only [Aio.aggregate, List.map_map]
  rfl

/-- C8: no two items of a returned `result.content` share a URL.  The
handler skips a URL already in the processed set before extraction, and
every appended item's URL enters that set in the same step, so the
accumulated URLs stay pairwise distinct; truncation and per-item cleanup
preserve them. -/
theorem C8_content_urls_unique :
    ∀ (host_url : String) (max_links : Nat) (use_sitemap : Bool)
      (sitemap_urls : Option (List String)) (pages : String → Aio.PageResult)
      (r : CrawlerResult) (trace : List String),
      Aio.crawl host_url max_links use_sitemap sitemap_urls pages =
        .ok (r, trace) →
      (r.content.map (·.url)).Nodup := by
  intro host_url max_links use_sitemap sitemap_urls pages r trace hok
  by_cases hv : Aio.is_valid_url host_url
  · have hs0 : UrlsOk
        ⟨[], [], pySetList (sitemap_urls.getD []), !use_sitemap⟩ :=
      ⟨List.nodup_nil, by simp⟩
    rcases hq : Aio.initial_requests host_url max_links use_sitemap sitemap_urls
      with _ | q
    · rw [Aio.crawl, if_neg (by simp [hv]), hq] at hok
      simp only at hok
      cases hok
      rw [aggregate_url_map]
      simp
    · rw [Aio.crawl, if_neg (by simp [hv]), hq] at hok
      simp only at hok
      cases hok
      rw [aggregate_url_map, List.map_take]
      exact List.Nodup.sublist (List.take_sublist _ _)
        (run_loop_urlsOk host_url max_links use_sitemap pages
          (max_links + 1) q _ hs0).1
  · rw [Aio.crawl, if_pos (by simpa using hv)] at hok
    cases hok

/-- Witness for C8 at a concrete crawl returning one item. -/
theorem C8_content_urls_unique_witness :
    Aio.crawl "https://example.com" 2 false none
        (fun _ => Aio.PageResult.ok "T" "B" Aio.Discovery.fail) =
      .ok (⟨[⟨"https://example.com", "T", "B"⟩], ["https://example.com"], []⟩,
        ["https://example.com"]) ∧
    ((⟨[⟨"https://example.com", "T", "B"⟩], ["https://example.com"], []⟩
        : CrawlerResult).content.map (·.url)).Nodup :=
  ⟨by rfl,
    C8_content_urls_unique "https://example.com" 2 false none
      (fun _ => Aio.PageResult.ok "T" "B" Aio.Discovery.fail)
      ⟨[⟨"https://example.com", "T", "B"⟩], ["https://example.com"], []⟩
      ["https://example.com"] (by rfl)⟩

theorem handler_after_append_sitemap_no_requests (host_url : String)
    (max_links : Nat) (s1 : Aio.CrawlState) (disc : Aio.Discovery) :
    (Aio.handler_after_append host_url max_links true s1 disc).2 = [] := by
  rw [Aio.handler_after_append.eq_def]
  split
  · rfl
  · rfl

/-- C9 counterexample: with `max_links = 1` and two sitemap seeds, only
`sitemap_urls[:max_links]` — the first seed — is loaded into the
frontier, not all seeds as the claim states; behaviourally, when the
first seed's fetch fails and the second seed's page is available, the
crawl still returns no content and the second seed is never fetched
(it is absent from the fetch trace). -/
theorem C9_counterexample_seed_truncation :
    Aio.initial_requests "https://example.com" 1 true
        (some ["https://example.com/a", "https://example.com/b"]) =
      some ["https://example.com/a"] ∧
    ¬ Aio.initial_requests "https://example.com" 1 true
        (some ["https://example.com/a", "https://example.com/b"]) =
      some ["https://example.com/a", "https://example.com/b"] ∧
    Aio.crawl "https://example.com" 1 true
        (some ["https://example.com/a", "https://example.com/b"])
        (fun u => if u = "https://example.com/b"
          then Aio.PageResult.ok "B" "body" Aio.Discovery.fail
          else Aio.PageResult.fail) =
      .ok (⟨[], [], ["https://example.com/a", "https://example.com/b"]⟩,
        ["https://example.com/a"]) := by
  refine ⟨rfl, by decide, by rfl⟩

/-- C9 amended: in sitemap mode the frontier's initial contents are the
first `max_links` sitemap seeds (`sitemap_urls[:max_links]`) — all seeds
exactly when the seed list is within the budget — and the handler never
enqueues further frontier entries (heuristic link discovery is skipped),
so the handler's request output is always empty in sitemap mode. -/
theorem C9_sitemap_mode :
    ∀ (host_url : String) (max_links : Nat) (seeds : List String)
      (s : Aio.CrawlState) (url : String) (page : Aio.PageResult),
      Aio.initial_requests host_url max_links true (some seeds) =
        some (seeds.take max_links) ∧
      (seeds.length ≤ max_links →
        Aio.initial_requests host_url max_links true (some seeds) = some seeds) ∧
      (Aio.request_handler host_url max_links true s url page).2 = [] := by
  intro host_url max_links seeds s url page
  refine ⟨rfl, ?_, ?_⟩
  · intro hle
    rw [Aio.initial_requests]
    simp [List.take_of_length_le hle]
  · rw [Aio.request_handler.eq_def]
    split
    · rfl
    · split
      · rfl
      · cases page with
        | fail => rfl
        | ok title text disc =>
          exact handler_after_append_sitemap_no_requests host_url max_links _ disc

/-- Witness for C9's amended theorem: with budget 2 both of two seeds
are loaded, and a concrete handler step in sitemap mode enqueues
nothing. -/
theorem C9_sitemap_mode_witness :
    Aio.initial_requests "https://example.com" 2 true
        (some ["https://example.com/a", "https://example.com/b"]) =
      some ["https://example.com/a", "https://example.com/b"] ∧
    (Aio.request_handler "https://example.com" 2 true ⟨[], [], [], false⟩
        "https://example.com/a"
        (Aio.PageResult.ok "T" "B" (Aio.Discovery.found []))).2 = [] :=
  ⟨(C9_sitemap_mode "https://example.com" 2
      ["https://example.com/a", "https://example.com/b"]
      ⟨[], [], [], false⟩ "https://example.com/a"
      (Aio.PageResult.ok "T" "B" (Aio.Discovery.found []))).2.1 (by decide),
    (C9_sitemap_mode "https://example.com" 2
      ["https://example.com/a", "https://example.com/b"]
      ⟨[], [], [], false⟩ "https://example.com/a"
      (Aio.PageResult.ok "T" "B" (Aio.Discovery.found []))).2.2⟩

/-- C10: `remove_url_by_index` is total; for an in-range index it
returns the list with exactly the element at that position removed
(take the prefix, drop past the index) together with that element (which
exists), and for any out-of-range index — including negative ones — it
returns the list unchanged with `None`. -/
theorem C10_remove_url_by_index_total :
    ∀ (α : Type) (data : List α) (index : Int),
      (0 ≤ index → index < (data.length : Int) →
        remove_url_by_index data index =
          (data.take index.toNat ++ data.drop (index.toNat + 1),
            data[index.toNat]?) ∧
          data[index.toNat]?.isSome = true) ∧
      (¬ (0 ≤ index ∧ index < (data.length : Int)) →
        remove_url_by_index data index = (data, none)) := by
  intro α data index
  constructor
  · intro h0 hlt
    have hnat : index.toNat < data.length := by omega
    constructor
    · rw [remove_url_by_index, if_pos ⟨h0, hlt⟩,
        List.eraseIdx_eq_take_drop_succ]
    · rw [List.getElem?_eq_getElem hnat]
      rfl
  · intro h
    rw [remove_url_by_index, if_neg h]

/-- Witness for C10 at a concrete in-range and a concrete out-of-range
index. -/
theorem C10_remove_url_by_index_total_witness :
    remove_url_by_index ([10, 20, 30] : List Nat) 1 = ([10, 30], some 20) ∧
      remove_url_by_index ([10, 20, 30] : List Nat) (-1) =
        ([10, 20, 30], none) :=
  ⟨(((C10_remove_url_by_index_total Nat [10, 20, 30] 1).1
        (by decide) (by decide)).1).trans (by decide),
    (C10_remove_url_by_index_total Nat [10, 20, 30] (-1)).2 (by decide)⟩
